import Mathlib

/-!
Verification development for the report callbacks of the AlpacaTradingAgent
web UI (webui/callbacks/report_callbacks.py).

The callbacks are shallowly embedded as pure Lean functions.  The shared
mutable `app_state` is passed explicitly: the ordered key list of
`app_state.symbol_states` becomes a `List String` parameter, `get_state`
becomes a `String → Option SymbolState` parameter, and the external
collaborators (`validate_reports_for_ui`, `render_researcher_debate`,
`render_risk_debate`) become function parameters.

Python semantics that matter here are made explicit:
  - truthiness of an optional string (`None` and the empty string are falsy)
    is `pyTruthy`;
  - `a or b` on such values is `pyOr`;
  - list indexing with possibly negative indices, raising `IndexError` when
    out of bounds, is `pyListGet` (with `none` standing for the raised
    error); composers that index the symbol list therefore return
    `Except String _`, where `Except.error "IndexError"` models the raise;
  - `str.title()` is `pyTitle`.

Dash components carry only presentational styling around a text payload, so
a rendered component is modelled by its text: `create_markdown_content`
returns the effective markdown text, a symbol button is the pair of its
label and its active flag, and a debate tab renders to `DebateOut`.
-/

/-- Python truthiness of an optional string: None and the empty string are
falsy, every other string is truthy. -/
def pyTruthy : Option String → Bool
  | none => false
  | some s => s != ""

/-- Python `a or b` restricted to optional strings: the first operand if it
is truthy, otherwise the second operand. -/
def pyOr (a b : Option String) : Option String :=
  if pyTruthy a then a else b

/-- Python `x or d` where `d` is a plain (truthy) default string, as used in
`reports.get(k) or "default"`. -/
def pyOrDefault (a : Option String) (d : String) : String :=
  if pyTruthy a then a.getD "" else d

/-- Python list indexing `xs[i]` with negative-index wraparound; `none`
models the `IndexError` raised when the index is out of bounds. -/
def pyListGet {α : Type} (xs : List α) (i : Int) : Option α :=
  if 0 ≤ i then xs.get? i.toNat
  else if -(xs.length : Int) ≤ i then xs.get? ((xs.length : Int) + i).toNat
  else none

/-- Worker for `pySplitChar`, over the character list. -/
def splitCharAux (sep : Char) : List Char → List (List Char)
  | [] => [[]]
  | c :: cs =>
    let r := splitCharAux sep cs
    if c = sep then [] :: r
    else match r with
      | [] => [[c]]
      | g :: gs => (c :: g) :: gs

/-- Python `s.split(sep)` for a one-character separator (the source only
splits on "." and on a newline). -/
def pySplitChar (sep : Char) (s : String) : List String :=
  (splitCharAux sep s.data).map fun g => ⟨g⟩

/-- Python `s.strip()`: drop leading and trailing whitespace. -/
def pyStrip (s : String) : String :=
  ⟨((s.data.dropWhile Char.isWhitespace).reverse.dropWhile Char.isWhitespace).reverse⟩

/-- Python `s.replace(a, b)` for one-character pattern and replacement (the
source only replaces underscores by spaces). -/
def pyReplaceChar (a b : Char) (s : String) : String :=
  ⟨s.data.map (fun c => if c = a then b else c)⟩

/-- Python `sep.join(xs)`. -/
def pyJoin (sep : String) : List String → String
  | [] => ""
  | [x] => x
  | x :: y :: xs => x ++ sep ++ pyJoin sep (y :: xs)

/-- Character-level worker for `pyTitle`: the boolean records whether the
previous character was alphabetic. -/
def pyTitleAux : Bool → List Char → List Char
  | _, [] => []
  | prevAlpha, c :: cs =>
    if c.isAlpha then
      (if prevAlpha then c.toLower else c.toUpper) :: pyTitleAux true cs
    else
      c :: pyTitleAux false cs

/-- Python `str.title()`: each maximal run of letters gets an upper-case
first letter and lower-case rest. -/
def pyTitle (s : String) : String :=
  ⟨pyTitleAux false s.data⟩

/-- Structured decision record held in `state["analysis_results"]`; the code
reads it only through `.get("decision", "No decision")` and
`.get("date", "N/A")`. -/
structure AnalysisResults where
  decision : Option String
  date : Option String

/-- Per-symbol analysis state, the part of the shared `SymbolState` record
that the report callbacks read.  `current_reports` and `agent_statuses` are
string-keyed dictionaries, embedded as functions to `Option String`
(`none` = key absent).  `analysis_complete` is the truthiness of
`state.get("analysis_complete")` (absent = false); `analysis_results` is
`none` when `state["analysis_results"]` is falsy; `recommended_action` is
`none` when the key is absent; `risk_debate_history` is
`state.get("risk_debate_state", {}).get("history")`. -/
structure SymbolState where
  current_reports : String → Option String
  agent_statuses : String → Option String
  analysis_complete : Bool
  analysis_results : Option AnalysisResults
  recommended_action : Option String
  risk_debate_history : Option String
  ticker_symbol : String

/-- Text payload of `create_markdown_content(content, default_message)`:
the default message replaces empty or whitespace-only content. -/
def create_markdown_content (content : String) (default_message : String) : String :=
  if content = "" ∨ pyStrip content = "" then default_message else content

/-- The analyst display name whose status governs a given report slot
(the keys of `analyst_status_map` in `update_tabs_content`). -/
def analyst_status_key (report_type : String) : String :=
  if report_type = "market_report" then "Market Analyst"
  else if report_type = "sentiment_report" then "Social Analyst"
  else if report_type = "news_report" then "News Analyst"
  else if report_type = "fundamentals_report" then "Fundamentals Analyst"
  else if report_type = "macro_report" then "Macro Analyst"
  else ""

/-- Body of the per-slot resolution loop of `update_tabs_content`: given the
slot name, the analyst status and the raw content, produce the display text.
`v` is the external `validate_reports_for_ui`, applied to a one-slot
dictionary and projected back at the same slot, hence modelled as a function
of the slot name and the content. -/
def resolve_analyst_slot (v : String → String → String)
    (report_type : String) (status : Option String) (content : Option String) : String :=
  if status == some "completed" && pyTruthy content then
    content.getD ""
  else if status == some "in_progress" then
    "🔄 " ++ pyTitle (pyReplaceChar '_' ' ' report_type) ++ " - Analysis in progress..."
  else if status == some "pending" then
    "⏳ " ++ pyTitle (pyReplaceChar '_' ' ' report_type) ++ " - Waiting to start..."
  else if pyTruthy content then
    v report_type (content.getD "")
  else
    "No " ++ pyTitle (pyReplaceChar '_' ' ' report_type) ++ " available yet."

/-- Entry of the `validated_reports` dictionary for one of the five analyst
slots (the dictionary always holds all five keys, so the later
`validated_reports.get(slot, default)` defaults are dead and the entry is the
resolved text itself). -/
def validated_reports (v : String → String → String) (st : SymbolState)
    (report_type : String) : String :=
  resolve_analyst_slot v report_type
    (st.agent_statuses (analyst_status_key report_type))
    (st.current_reports report_type)

/-- The eight tab payloads produced by `update_tabs_content` for a resolved
symbol state, in source order: market, sentiment, news, fundamentals, macro,
research manager, trader plan, final decision. -/
def tabs_for_symbol (v : String → String → String) (st : SymbolState) : List String :=
  let market_report := validated_reports v st "market_report"
  let sentiment_report := validated_reports v st "sentiment_report"
  let news_report := validated_reports v st "news_report"
  let fundamentals_report := validated_reports v st "fundamentals_report"
  let macro_report := validated_reports v st "macro_report"
  let research_manager_report :=
    pyOrDefault (st.current_reports "research_manager_report")
      "No research manager decision available yet."
  let trader_report :=
    pyOrDefault (st.current_reports "trader_investment_plan")
      "No trader report available yet."
  let portfolio_report :=
    pyOrDefault (st.current_reports "final_trade_decision")
      "No final decision available yet."
  [ create_markdown_content market_report "No content available yet.",
    create_markdown_content sentiment_report "No content available yet.",
    create_markdown_content news_report "No content available yet.",
    create_markdown_content fundamentals_report "No content available yet.",
    create_markdown_content macro_report "No content available yet.",
    create_markdown_content research_manager_report "No content available yet.",
    create_markdown_content trader_report "No content available yet.",
    create_markdown_content portfolio_report "No content available yet." ]

/-- Tab payloads of `update_tabs_content` for a resolved symbol: the
`get_state` miss gives eight copies of the no-data placeholder. -/
def tabs_content_for (v : String → String → String)
    (get_state : String → Option SymbolState) (symbol : String) : List String :=
  match get_state symbol with
  | none => List.replicate 8 (create_markdown_content "" "No data for this symbol.")
  | some st => tabs_for_symbol v st

/-- The `update_tabs_content` callback: `symbols` is
`list(app_state.symbol_states.keys())` (empty iff the dictionary is falsy),
`get_state` is `app_state.get_state`, `active_page` the pagination input.
`Except.error "IndexError"` models the raise of `symbols_list[active_page - 1]`. -/
def update_tabs_content (v : String → String → String)
    (symbols : List String) (get_state : String → Option SymbolState)
    (active_page : Option Int) : Except String (List String) :=
  match active_page with
  | none => .ok (List.replicate 8 (create_markdown_content "" "No analysis available yet."))
  | some p =>
    if symbols.isEmpty || p == 0 then
      .ok (List.replicate 8 (create_markdown_content "" "No analysis available yet."))
    else if (symbols.length : Int) < p then
      .ok (List.replicate 8 (create_markdown_content ""
        "Page index out of range. Please refresh or restart analysis."))
    else
      match pyListGet symbols (p - 1) with
      | none => .error "IndexError"
      | some symbol => .ok (tabs_content_for v get_state symbol)

/-- The decision text of the complete branch of `update_decision_summary`
(taken when `analysis_complete` is truthy and `final_trade_decision` is not
None). -/
def decision_final (st : SymbolState) : String :=
  match st.analysis_results with
  | some results =>
    "## Final Decision for " ++ st.ticker_symbol ++ "\n\n" ++
      "**Trade Action:** " ++ results.decision.getD "No decision" ++ "\n\n" ++
      "**Date:** " ++ results.date.getD "N/A"
  | none =>
    let base := "## Final Decision for " ++ st.ticker_symbol ++ "\n\n"
    let base :=
      if pyTruthy st.recommended_action then
        base ++ "**📈 RECOMMENDED ACTION: " ++ st.recommended_action.getD "" ++ "**\n\n"
      else base
    base ++ "**Full Analysis:**\n" ++ (st.current_reports "final_trade_decision").getD ""

/-- The `available_reports` list built in the not-yet-complete branch of
`update_decision_summary`: one sequential append per tracked artifact, in
source order.  Every artifact is gated on truthiness of its text except the
final trade decision, which is gated on `is not None`. -/
def available_reports (st : SymbolState) : List String :=
  (if pyTruthy (st.current_reports "market_report") then ["Market Analysis"] else []) ++
  (if pyTruthy (st.current_reports "sentiment_report") then ["Social Media Sentiment"] else []) ++
  (if pyTruthy (st.current_reports "news_report") then ["News Analysis"] else []) ++
  (if pyTruthy (st.current_reports "fundamentals_report") then ["Fundamentals Analysis"] else []) ++
  (if pyTruthy (st.current_reports "macro_report") then ["Macro Analysis"] else []) ++
  (if pyTruthy (st.current_reports "research_manager_report") then ["Research Manager Decision"] else []) ++
  (if pyTruthy (st.current_reports "trader_investment_plan") then ["Trader Investment Plan"] else []) ++
  (if pyTruthy st.risk_debate_history then ["Risk Debate"] else []) ++
  (if (st.current_reports "final_trade_decision").isSome then ["Portfolio Manager Final Decision"] else [])

/-- The `risk_debate_latest` local of `update_decision_summary`: the last
newline-separated line of the risk-debate history when the history is
truthy, otherwise the empty string. -/
def risk_debate_latest (st : SymbolState) : String :=
  if pyTruthy st.risk_debate_history then
    let risk_history := st.risk_debate_history.getD ""
    if risk_history != "" then (pySplitChar '\n' risk_history).getLastD "" else ""
  else ""

/-- The `current_decision` chain of `update_decision_summary`:
`final or risk_debate_latest or trader_investment_plan or
research_manager_report` under Python `or`.  A falsy result (None or the
empty string) is reported as `none`; the sole consumer only tests
truthiness before use, so this is exact. -/
def current_decision (st : SymbolState) : Option String :=
  pyOr (pyOr (pyOr (st.current_reports "final_trade_decision")
    (some (risk_debate_latest st)))
    (st.current_reports "trader_investment_plan"))
    (st.current_reports "research_manager_report")

/-- The decision text of the not-yet-complete branch of
`update_decision_summary`: list the available reports and append the current
decision when it is truthy; with no available report, the fixed not-complete
message. -/
def decision_interim (st : SymbolState) : String :=
  if available_reports st ≠ [] then
    let decision_text := "## Partial Analysis for " ++ st.ticker_symbol ++ "\n\n" ++
      "**Completed Reports:** " ++ pyJoin ", " (available_reports st) ++ "\n\n"
    if pyTruthy (current_decision st) then
      decision_text ++ "**Current Decision:** Based on completed analysis\n\n" ++
        (current_decision st).getD ""
    else decision_text
  else
    "Analysis not complete yet."

/-- Branch selection of `update_decision_summary` for a resolved state:
the complete branch needs `analysis_complete` truthy and the final trade
decision present (`is not None`); everything else goes to the interim
branch. -/
def decision_body (st : SymbolState) : String :=
  if st.analysis_complete && (st.current_reports "final_trade_decision").isSome then
    decision_final st
  else
    decision_interim st

/-- Decision summary for a resolved symbol: missing state gives the no-data
message. -/
def decision_for (get_state : String → Option SymbolState) (symbol : String) : String :=
  match get_state symbol with
  | none => "No data for this symbol."
  | some st => decision_body st

/-- The `update_decision_summary` callback. -/
def update_decision_summary (symbols : List String)
    (get_state : String → Option SymbolState)
    (active_page : Option Int) : Except String String :=
  match active_page with
  | none => .ok "Analysis not complete yet."
  | some p =>
    if symbols.isEmpty || p == 0 then
      .ok "Analysis not complete yet."
    else if (symbols.length : Int) < p then
      .ok "Page index out of range. Please refresh or restart analysis."
    else
      match pyListGet symbols (p - 1) with
      | none => .error "IndexError"
      | some symbol => .ok (decision_for get_state symbol)

/-- Rendered payload of a debate tab: either markdown placeholder text or an
iframe holding the rendered debate HTML. -/
inductive DebateOut where
  | markdown (text : String) : DebateOut
  | iframe (srcDoc : String) : DebateOut
deriving DecidableEq

/-- The `update_researcher_debate` callback; `render` is the external
`render_researcher_debate`. -/
def update_researcher_debate (render : String → String)
    (symbols : List String) (active_page : Option Int) : Except String DebateOut :=
  match active_page with
  | none => .ok (.markdown (create_markdown_content "" "No researcher debate available yet."))
  | some p =>
    if symbols.isEmpty || p == 0 then
      .ok (.markdown (create_markdown_content "" "No researcher debate available yet."))
    else if (symbols.length : Int) < p then
      .ok (.markdown (create_markdown_content ""
        "Page index out of range. Please refresh or restart analysis."))
    else
      match pyListGet symbols (p - 1) with
      | none => .error "IndexError"
      | some symbol => .ok (.iframe (render symbol))

/-- The `update_risk_debate` callback; `render` is the external
`render_risk_debate`. -/
def update_risk_debate (render : String → String)
    (symbols : List String) (active_page : Option Int) : Except String DebateOut :=
  match active_page with
  | none => .ok (.markdown (create_markdown_content "" "No risk debate available yet."))
  | some p =>
    if symbols.isEmpty || p == 0 then
      .ok (.markdown (create_markdown_content "" "No risk debate available yet."))
    else if (symbols.length : Int) < p then
      .ok (.markdown (create_markdown_content ""
        "Page index out of range. Please refresh or restart analysis."))
    else
      match pyListGet symbols (p - 1) with
      | none => .error "IndexError"
      | some symbol => .ok (.iframe (render symbol))

/-- The `update_report_display_text` callback. -/
def update_report_display_text (symbols : List String)
    (active_page : Option Int) : Except String String :=
  match active_page with
  | none => .ok ""
  | some p =>
    if symbols.isEmpty || p == 0 then
      .ok ""
    else if (symbols.length : Int) < p then
      .ok "Invalid page"
    else
      match pyListGet symbols (p - 1) with
      | none => .error "IndexError"
      | some symbol => .ok ("📊 " ++ symbol)

/-- The `tab_mapping` dictionary of `switch_tab`, in source order. -/
def tab_mapping : List (String × String) :=
  [ ("nav-market", "market-analysis"),
    ("nav-social", "social-sentiment"),
    ("nav-news", "news-analysis"),
    ("nav-fundamentals", "fundamentals-analysis"),
    ("nav-researcher", "researcher-debate"),
    ("nav-research-mgr", "research-manager"),
    ("nav-trader", "trader-plan"),
    ("nav-risk-agg", "risk-debate"),
    ("nav-risk-cons", "risk-debate"),
    ("nav-risk-neut", "risk-debate"),
    ("nav-final", "final-decision") ]

/-- The `switch_tab` callback: its input is the list of `prop_id` strings of
`ctx.triggered`; an empty list models an absent trigger.  The trigger id is
the `prop_id` up to the first dot, looked up in `tab_mapping` with default
"market-analysis". -/
def switch_tab (triggered : List String) : String :=
  match triggered with
  | [] => "market-analysis"
  | prop_id :: _ =>
    let trigger_id := (pySplitChar '.' prop_id).headD ""
    ((tab_mapping.lookup trigger_id).getD "market-analysis")

/-- One entry of `ctx.triggered` as seen by `handle_report_symbol_click`:
whether the `prop_id` contains "symbol-btn", and the integer index parsed
from it. -/
structure TriggerEntry where
  is_symbol_btn : Bool
  index : Int

/-- The button row rebuilt by `handle_report_symbol_click`: each button is
its symbol label paired with its active flag, active exactly at the clicked
index. -/
def render_symbol_buttons (symbols : List String) (clicked_index : Int) : List (String × Bool) :=
  symbols.enum.map (fun p => (p.2, ((p.1 : Int) == clicked_index)))

/-- The `handle_report_symbol_click` callback.  It returns the (possibly
updated) `app_state.current_symbol` together with the three outputs:
`none` models `(dash.no_update, dash.no_update, dash.no_update)`, and
`some (page, page, buttons)` the updated pagination pair plus the rebuilt
button row.  `symbol_clicks` holds the `n_clicks` values (0 standing for a
falsy None).  The inner `pyListGet` miss arm is unreachable: the bound check
`0 <= clicked_index < len(symbols)` guards the access. -/
def handle_report_symbol_click (symbols : List String) (current_symbol : Option String)
    (symbol_clicks : List Nat) (triggered : List TriggerEntry) :
    Option String × Option (Int × Int × List (String × Bool)) :=
  if !(symbol_clicks.any (fun n => n != 0)) || triggered.isEmpty then
    (current_symbol, none)
  else
    match triggered with
    | [] => (current_symbol, none)
    | t :: _ =>
      if t.is_symbol_btn then
        let clicked_index := t.index
        if 0 ≤ clicked_index ∧ clicked_index < (symbols.length : Int) then
          match pyListGet symbols clicked_index with
          | some sym =>
            let page_number := clicked_index + 1
            (some sym, some (page_number, page_number, render_symbol_buttons symbols clicked_index))
          | none => (current_symbol, none)
        else
          (current_symbol, none)
      else
        (current_symbol, none)

/-- Concrete validator used for instantiations: the identity on content. -/
def constValidator : String → String → String := fun _ content => content

/-- Concrete validator whose output differs visibly from its input, used to
show that validated branches really bypass or really apply it. -/
def bangValidator : String → String → String :=
  fun report_type content => "validated(" ++ report_type ++ "): " ++ content

/-- Concrete `get_state` that has no state for any symbol. -/
def noState : String → Option SymbolState := fun _ => none

/-- Concrete debate renderer used for instantiations. -/
def constRender : String → String := fun s => "<html>" ++ s ++ "</html>"

lemma list_get?_total {α : Type} :
    ∀ (xs : List α) (n : Nat), n < xs.length → ∃ a, xs.get? n = some a
  | [], n, h => absurd h (by simp)
  | x :: _, 0, _ => ⟨x, rfl⟩
  | _ :: xs, n + 1, h => list_get?_total xs n (by simpa using h)

lemma pyListGet_of_get? {α : Type} (xs : List α) (i : Int) (a : α)
    (h0 : 0 ≤ i) (h : xs.get? i.toNat = some a) : pyListGet xs i = some a := by
  unfold pyListGet
  rw [if_pos h0]
  exact h

lemma isEmpty_false_of_pos {α : Type} (xs : List α) (h : 0 < xs.length) :
    xs.isEmpty = false := by
  cases xs with
  | nil => simp at h
  | cons a l => rfl

lemma tabs_content_for_length (v : String → String → String)
    (g : String → Option SymbolState) (s : String) :
    (tabs_content_for v g s).length = 8 := by
  unfold tabs_content_for
  cases g s <;> rfl

lemma update_tabs_content_in_range (v : String → String → String)
    (symbols : List String) (g : String → Option SymbolState)
    (p : Int) (s : String) (hp1 : 1 ≤ p) (hp2 : p ≤ (symbols.length : Int))
    (hs : symbols.get? (p - 1).toNat = some s) :
    update_tabs_content v symbols g (some p) = .ok (tabs_content_for v g s) := by
  have he : symbols.isEmpty = false := isEmpty_false_of_pos _ (by omega)
  have hp0 : (p == 0) = false := by simp; omega
  have hlt : ¬ ((symbols.length : Int) < p) := by omega
  have hg : pyListGet symbols (p - 1) = some s :=
    pyListGet_of_get? _ _ _ (by omega) hs
  simp [update_tabs_content, he, hp0, hlt, hg]

lemma update_decision_summary_in_range
    (symbols : List String) (g : String → Option SymbolState)
    (p : Int) (s : String) (hp1 : 1 ≤ p) (hp2 : p ≤ (symbols.length : Int))
    (hs : symbols.get? (p - 1).toNat = some s) :
    update_decision_summary symbols g (some p) = .ok (decision_for g s) := by
  have he : symbols.isEmpty = false := isEmpty_false_of_pos _ (by omega)
  have hp0 : (p == 0) = false := by simp; omega
  have hlt : ¬ ((symbols.length : Int) < p) := by omega
  have hg : pyListGet symbols (p - 1) = some s :=
    pyListGet_of_get? _ _ _ (by omega) hs
  simp [update_decision_summary, he, hp0, hlt, hg]

lemma update_researcher_debate_in_range (render : String → String)
    (symbols : List String) (p : Int) (s : String)
    (hp1 : 1 ≤ p) (hp2 : p ≤ (symbols.length : Int))
    (hs : symbols.get? (p - 1).toNat = some s) :
    update_researcher_debate render symbols (some p) = .ok (.iframe (render s)) := by
  have he : symbols.isEmpty = false := isEmpty_false_of_pos _ (by omega)
  have hp0 : (p == 0) = false := by simp; omega
  have hlt : ¬ ((symbols.length : Int) < p) := by omega
  have hg : pyListGet symbols (p - 1) = some s :=
    pyListGet_of_get? _ _ _ (by omega) hs
  simp [update_researcher_debate, he, hp0, hlt, hg]

lemma update_risk_debate_in_range (render : String → String)
    (symbols : List String) (p : Int) (s : String)
    (hp1 : 1 ≤ p) (hp2 : p ≤ (symbols.length : Int))
    (hs : symbols.get? (p - 1).toNat = some s) :
    update_risk_debate render symbols (some p) = .ok (.iframe (render s)) := by
  have he : symbols.isEmpty = false := isEmpty_false_of_pos _ (by omega)
  have hp0 : (p == 0) = false := by simp; omega
  have hlt : ¬ ((symbols.length : Int) < p) := by omega
  have hg : pyListGet symbols (p - 1) = some s :=
    pyListGet_of_get? _ _ _ (by omega) hs
  simp [update_risk_debate, he, hp0, hlt, hg]

lemma update_report_display_text_in_range
    (symbols : List String) (p : Int) (s : String)
    (hp1 : 1 ≤ p) (hp2 : p ≤ (symbols.length : Int))
    (hs : symbols.get? (p - 1).toNat = some s) :
    update_report_display_text symbols (some p) = .ok ("📊 " ++ s) := by
  have he : symbols.isEmpty = false := isEmpty_false_of_pos _ (by omega)
  have hp0 : (p == 0) = false := by simp; omega
  have hlt : ¬ ((symbols.length : Int) < p) := by omega
  have hg : pyListGet symbols (p - 1) = some s :=
    pyListGet_of_get? _ _ _ (by omega) hs
  simp [update_report_display_text, he, hp0, hlt, hg]

/-- C5: for every non-empty symbol list and every page index p with
1 <= p <= len(symbols), each page-consuming composer (tab content, decision
summary, researcher debate, risk debate, current-symbol display text)
resolves the page to the symbol symbols[p-1] (1-based page to 0-based list
index): each output is the composer's per-symbol body applied to that
symbol. -/
theorem c5_page_resolves_to_prior_symbol
    (v : String → String → String) (g g2 : String → Option SymbolState)
    (r1 r2 : String → String) (symbols : List String) (p : Int) (s : String)
    (hp1 : 1 ≤ p) (hp2 : p ≤ (symbols.length : Int))
    (hs : symbols.get? (p - 1).toNat = some s) :
    update_tabs_content v symbols g (some p) = .ok (tabs_content_for v g s) ∧
    update_decision_summary symbols g2 (some p) = .ok (decision_for g2 s) ∧
    update_researcher_debate r1 symbols (some p) = .ok (.iframe (r1 s)) ∧
    update_risk_debate r2 symbols (some p) = .ok (.iframe (r2 s)) ∧
    update_report_display_text symbols (some p) = .ok ("📊 " ++ s) :=
  ⟨update_tabs_content_in_range v symbols g p s hp1 hp2 hs,
   update_decision_summary_in_range symbols g2 p s hp1 hp2 hs,
   update_researcher_debate_in_range r1 symbols p s hp1 hp2 hs,
   update_risk_debate_in_range r2 symbols p s hp1 hp2 hs,
   update_report_display_text_in_range symbols p s hp1 hp2 hs⟩

theorem c5_witness :
    update_tabs_content constValidator ["AAPL", "MSFT"] noState (some 2) =
      .ok (tabs_content_for constValidator noState "MSFT") ∧
    update_decision_summary ["AAPL", "MSFT"] noState (some 2) =
      .ok (decision_for noState "MSFT") ∧
    update_report_display_text ["AAPL", "MSFT"] (some 2) = .ok ("📊 " ++ "MSFT") := by
  have h := c5_page_resolves_to_prior_symbol constValidator noState noState
    constRender constRender ["AAPL", "MSFT"] 2 "MSFT"
    (by decide) (by decide) (by decide)
  exact ⟨h.1, h.2.1, h.2.2.2.2⟩

/-- C4 (amended): for every page index p greater than the number of symbols,
no composer raises or indexes the symbol list out of bounds; when the symbol
list is non-empty, every page-consuming composer returns its designated
out-of-range message (the explicit page-index message for the four report
composers, "Invalid page" for the current-symbol display); when the symbol
list is empty, the earlier empty-registry guard fires instead and each
composer returns its empty-registry placeholder. -/
theorem c4_out_of_range_page
    (v : String → String → String) (g g2 : String → Option SymbolState)
    (r1 r2 : String → String) (symbols : List String) (p : Int)
    (hgt : (symbols.length : Int) < p) :
    (symbols ≠ [] →
      update_tabs_content v symbols g (some p) =
        .ok (List.replicate 8 "Page index out of range. Please refresh or restart analysis.") ∧
      update_decision_summary symbols g2 (some p) =
        .ok "Page index out of range. Please refresh or restart analysis." ∧
      update_researcher_debate r1 symbols (some p) =
        .ok (.markdown "Page index out of range. Please refresh or restart analysis.") ∧
      update_risk_debate r2 symbols (some p) =
        .ok (.markdown "Page index out of range. Please refresh or restart analysis.") ∧
      update_report_display_text symbols (some p) = .ok "Invalid page") ∧
    (symbols = [] →
      update_tabs_content v symbols g (some p) =
        .ok (List.replicate 8 "No analysis available yet.") ∧
      update_decision_summary symbols g2 (some p) = .ok "Analysis not complete yet." ∧
      update_researcher_debate r1 symbols (some p) =
        .ok (.markdown "No researcher debate available yet.") ∧
      update_risk_debate r2 symbols (some p) =
        .ok (.markdown "No risk debate available yet.") ∧
      update_report_display_text symbols (some p) = .ok "") := by
  constructor
  · intro hne
    have hlen : 0 < symbols.length := List.length_pos.mpr hne
    have he : symbols.isEmpty = false := isEmpty_false_of_pos _ hlen
    have hp0 : (p == 0) = false := by
      simp only [beq_eq_false_iff_ne, ne_eq]
      omega
    refine ⟨?_, ?_, ?_, ?_, ?_⟩ <;>
      simp [update_tabs_content, update_decision_summary, update_researcher_debate,
        update_risk_debate, update_report_display_text, he, hp0, hgt,
        create_markdown_content]
  · intro hnil
    subst hnil
    refine ⟨?_, ?_, ?_, ?_, ?_⟩ <;>
      simp [update_tabs_content, update_decision_summary, update_researcher_debate,
        update_risk_debate, update_report_display_text, create_markdown_content]

/-- C4 counterexample: with an empty symbol list the page index 1 exceeds the
symbol count, yet `update_tabs_content` returns the empty-registry
placeholder, not the designated out-of-range message. -/
theorem c4_counterexample :
    (([] : List String).length : Int) < 1 ∧
    update_tabs_content constValidator [] noState (some 1) =
      .ok (List.replicate 8 "No analysis available yet.") ∧
    "No analysis available yet." ≠
      "Page index out of range. Please refresh or restart analysis." := by
  refine ⟨by decide, by rfl, by decide⟩

theorem c4_witness :
    update_tabs_content constValidator ["AAPL"] noState (some 5) =
      .ok (List.replicate 8 "Page index out of range. Please refresh or restart analysis.") ∧
    update_report_display_text ["AAPL"] (some 5) = .ok "Invalid page" ∧
    update_decision_summary [] noState (some 5) = .ok "Analysis not complete yet." := by
  have h1 := c4_out_of_range_page constValidator noState noState constRender constRender
    ["AAPL"] 5 (by decide)
  have h2 := c4_out_of_range_page constValidator noState noState constRender constRender
    [] 5 (by decide)
  exact ⟨(h1.1 (by decide)).1, (h1.1 (by decide)).2.2.2.2, (h2.2 rfl).2.1⟩

/-- C3 (amended): for every input whose active page is not negative,
`update_tabs_content` returns exactly eight outputs, one per tab, in the
fixed source order (market, sentiment, news, fundamentals, macro, research
manager, trader plan, final decision); in each of the three early-exit
branches (no symbols or no active page; active page beyond the symbol count;
no state for the resolved symbol) all eight outputs carry the same
placeholder text.  (A negative active page can instead raise an
out-of-bounds IndexError, see the counterexample.) -/
theorem c3_eight_outputs
    (v : String → String → String) (symbols : List String)
    (g : String → Option SymbolState) (page : Option Int)
    (hnn : ∀ p, page = some p → 0 ≤ p) :
    (∃ outs, update_tabs_content v symbols g page = .ok outs ∧ outs.length = 8) ∧
    (page = none ∨ page = some 0 ∨ symbols = [] →
      update_tabs_content v symbols g page =
        .ok (List.replicate 8 "No analysis available yet.")) ∧
    (∀ p, page = some p → symbols ≠ [] → (symbols.length : Int) < p →
      update_tabs_content v symbols g page =
        .ok (List.replicate 8 "Page index out of range. Please refresh or restart analysis.")) ∧
    (∀ p s, page = some p → 1 ≤ p → p ≤ (symbols.length : Int) →
      symbols.get? (p - 1).toNat = some s → g s = none →
      update_tabs_content v symbols g page =
        .ok (List.replicate 8 "No data for this symbol.")) ∧
    (∀ p s st, page = some p → 1 ≤ p → p ≤ (symbols.length : Int) →
      symbols.get? (p - 1).toNat = some s → g s = some st →
      update_tabs_content v symbols g page = .ok (tabs_for_symbol v st)) := by
  refine ⟨?_, ?_, ?_, ?_, ?_⟩
  · cases page with
    | none => exact ⟨_, rfl, by simp⟩
    | some p =>
      simp only [update_tabs_content]
      by_cases h1 : (symbols.isEmpty || p == 0) = true
      · rw [if_pos h1]
        exact ⟨_, rfl, by simp⟩
      · rw [if_neg h1]
        by_cases h2 : (symbols.length : Int) < p
        · rw [if_pos h2]
          exact ⟨_, rfl, by simp⟩
        · rw [if_neg h2]
          have h0 := hnn p rfl
          simp only [Bool.or_eq_true, beq_iff_eq, List.isEmpty_iff] at h1
          push_neg at h1
          have hlen : 0 < symbols.length := List.length_pos.mpr h1.1
          obtain ⟨s, hs⟩ := list_get?_total symbols (p - 1).toNat (by omega)
          have hg : pyListGet symbols (p - 1) = some s :=
            pyListGet_of_get? _ _ _ (by omega) hs
          rw [hg]
          exact ⟨_, rfl, tabs_content_for_length v g s⟩
  · intro h
    rcases h with h | h | h
    · subst h
      simp [update_tabs_content, create_markdown_content]
    · subst h
      simp [update_tabs_content, create_markdown_content]
    · subst h
      cases page with
      | none => simp [update_tabs_content, create_markdown_content]
      | some p => simp [update_tabs_content, create_markdown_content]
  · intro p hpage hne hgt
    subst hpage
    have hlen : 0 < symbols.length := List.length_pos.mpr hne
    have he : symbols.isEmpty = false := isEmpty_false_of_pos _ hlen
    have hp0 : (p == 0) = false := by
      simp only [beq_eq_false_iff_ne, ne_eq]
      omega
    simp [update_tabs_content, he, hp0, hgt, create_markdown_content]
  · intro p s hpage hp1 hp2 hs hnone
    subst hpage
    rw [update_tabs_content_in_range v symbols g p s hp1 hp2 hs]
    simp [tabs_content_for, hnone, create_markdown_content]
  · intro p s st hpage hp1 hp2 hs hst
    subst hpage
    rw [update_tabs_content_in_range v symbols g p s hp1 hp2 hs]
    simp [tabs_content_for, hst]

/-- C3 counterexample: at the concrete input (symbols=["A"], page=-1) the
callback raises an IndexError instead of returning eight outputs, so the
claim as stated (eight outputs for every input) is false. -/
theorem c3_counterexample :
    update_tabs_content constValidator ["A"] noState (some (-1)) =
      .error "IndexError" ∧
    ¬ ∃ outs, update_tabs_content constValidator ["A"] noState (some (-1)) =
      .ok outs := by
  constructor
  · rfl
  · rintro ⟨outs, h⟩
    rw [show update_tabs_content constValidator ["A"] noState (some (-1)) =
      .error "IndexError" from rfl] at h
    exact Except.noConfusion h

theorem c3_witness :
    update_tabs_content constValidator ["A"] noState (some 9) =
      .ok (List.replicate 8 "Page index out of range. Please refresh or restart analysis.") ∧
    update_tabs_content constValidator ["A"] noState (some 1) =
      .ok (List.replicate 8 "No data for this symbol.") ∧
    update_tabs_content constValidator [] noState none =
      .ok (List.replicate 8 "No analysis available yet.") := by
  have h9 := c3_eight_outputs constValidator ["A"] noState (some 9)
    (fun p hp => by injection hp with hp; omega)
  have h1 := c3_eight_outputs constValidator ["A"] noState (some 1)
    (fun p hp => by injection hp with hp; omega)
  have hn := c3_eight_outputs constValidator [] noState none (fun p hp => by cases hp)
  exact ⟨h9.2.2.1 9 rfl (by decide) (by decide),
    h1.2.2.2.1 1 "A" rfl (by decide) (by decide) (by decide) rfl,
    hn.2.1 (Or.inl rfl)⟩

/-- C9: for every negative page index p with a non-empty symbol list, the
guards (falsy page; page greater than symbol count) both pass, so no
out-of-range message is produced: the indexing expression resolves, via
Python negative indexing, to the symbol at position len(symbols)+p-1 when
that position is non-negative, and raises an out-of-bounds IndexError when
p-1 < -len(symbols).  Shown for the tab-content and researcher-debate
composers. -/
theorem c9_negative_page
    (v : String → String → String) (g : String → Option SymbolState)
    (r : String → String) (symbols : List String) (p : Int)
    (hneg : p < 0) (hne : symbols ≠ []) :
    (0 ≤ (symbols.length : Int) + p - 1 →
      ∀ s, symbols.get? ((symbols.length : Int) + p - 1).toNat = some s →
        update_tabs_content v symbols g (some p) = .ok (tabs_content_for v g s) ∧
        update_researcher_debate r symbols (some p) = .ok (.iframe (r s))) ∧
    (p - 1 < -(symbols.length : Int) →
      update_tabs_content v symbols g (some p) = .error "IndexError" ∧
      update_researcher_debate r symbols (some p) = .error "IndexError") := by
  have hlen : 0 < symbols.length := List.length_pos.mpr hne
  have he : symbols.isEmpty = false := isEmpty_false_of_pos _ hlen
  have hp0 : (p == 0) = false := by
    simp only [beq_eq_false_iff_ne, ne_eq]
    omega
  have hgt : ¬ ((symbols.length : Int) < p) := by omega
  have hidx : ¬ ((0 : Int) ≤ p - 1) := by omega
  constructor
  · intro hpos s hs
    have harith : (symbols.length : Int) + (p - 1) = (symbols.length : Int) + p - 1 := by
      ring
    have hg : pyListGet symbols (p - 1) = some s := by
      unfold pyListGet
      rw [if_neg hidx, if_pos (by omega), harith]
      exact hs
    constructor
    · simp [update_tabs_content, he, hp0, hgt, hg]
    · simp [update_researcher_debate, he, hp0, hgt, hg]
  · intro hoob
    have hg : pyListGet symbols (p - 1) = none := by
      unfold pyListGet
      rw [if_neg hidx, if_neg (by omega)]
    constructor
    · simp [update_tabs_content, he, hp0, hgt, hg]
    · simp [update_researcher_debate, he, hp0, hgt, hg]

theorem c9_witness :
    update_tabs_content constValidator ["A", "B", "C"] noState (some (-1)) =
      .ok (tabs_content_for constValidator noState "B") ∧
    update_researcher_debate constRender ["A", "B", "C"] (some (-1)) =
      .ok (.iframe (constRender "B")) ∧
    update_tabs_content constValidator ["A", "B", "C"] noState (some (-5)) =
      .error "IndexError" := by
  have hin := c9_negative_page constValidator noState constRender ["A", "B", "C"]
    (-1) (by decide) (by decide)
  have hout := c9_negative_page constValidator noState constRender ["A", "B", "C"]
    (-5) (by decide) (by decide)
  exact ⟨(hin.1 (by decide) "B" (by decide)).1,
    (hin.1 (by decide) "B" (by decide)).2,
    (hout.2 (by decide)).1⟩

lemma lookup_none_of_not_mem_keys {β : Type} (k : String)
    (l : List (String × β)) (h : k ∉ l.map Prod.fst) : l.lookup k = none := by
  induction l with
  | nil => rfl
  | cons a l ih =>
    rcases a with ⟨k1, b⟩
    simp only [List.map, List.mem_cons, not_or] at h
    have e : (k == k1) = false := beq_eq_false_iff_ne.mpr h.1
    simp [List.lookup, e, ih h.2]

/-- C8: `switch_tab` is a stateless lookup from the triggering
navigation-control identifier to a tab identifier: each of the three
risk-stance triggers (nav-risk-agg, nav-risk-cons, nav-risk-neut) maps to
the same single tab identifier "risk-debate", and an unrecognized or absent
trigger maps to the default first tab "market-analysis". -/
theorem c8_tab_router :
    (∀ rest : List String,
      switch_tab ("nav-risk-agg.n_clicks" :: rest) = "risk-debate" ∧
      switch_tab ("nav-risk-cons.n_clicks" :: rest) = "risk-debate" ∧
      switch_tab ("nav-risk-neut.n_clicks" :: rest) = "risk-debate") ∧
    switch_tab [] = "market-analysis" ∧
    (∀ prop_id rest, ((pySplitChar '.' prop_id).headD "") ∉ tab_mapping.map Prod.fst →
      switch_tab (prop_id :: rest) = "market-analysis") := by
  refine ⟨fun rest => ⟨rfl, rfl, rfl⟩, rfl, ?_⟩
  intro prop_id rest hmem
  rw [show switch_tab (prop_id :: rest) =
      ((tab_mapping.lookup ((pySplitChar '.' prop_id).headD "")).getD "market-analysis")
    from rfl, lookup_none_of_not_mem_keys _ _ hmem]
  rfl

theorem c8_witness :
    switch_tab ["nav-unknown.n_clicks"] = "market-analysis" ∧
    switch_tab ["nav-risk-cons.n_clicks"] = "risk-debate" := by
  have h := c8_tab_router
  exact ⟨h.2.2 "nav-unknown.n_clicks" [] (by decide), (h.1 []).2.1⟩

/-- C1: for each of the five analyst report slots, `update_tabs_content`
resolves the display text by this exact precedence, independently per slot:
(1) status completed with non-empty content gives exactly the raw content,
bypassing the validator entirely; (2) else status in_progress gives the
fixed in-progress placeholder naming the slot regardless of content;
(3) else status pending gives the fixed waiting-to-start placeholder naming
the slot; (4) else non-empty content gives the validator applied to it;
(5) else the fixed not-available placeholder naming the slot.  The final
conjunct ties the resolver to the slots and analyst names used by
`update_tabs_content` via `tabs_for_symbol`. -/
theorem c1_slot_precedence
    (v : String → String → String) (report_type : String)
    (status content : Option String) :
    (status = some "completed" → pyTruthy content = true →
      resolve_analyst_slot v report_type status content = content.getD "") ∧
    (status = some "in_progress" →
      resolve_analyst_slot v report_type status content =
        "🔄 " ++ pyTitle (pyReplaceChar '_' ' ' report_type) ++ " - Analysis in progress...") ∧
    (status = some "pending" →
      resolve_analyst_slot v report_type status content =
        "⏳ " ++ pyTitle (pyReplaceChar '_' ' ' report_type) ++ " - Waiting to start...") ∧
    (status ≠ some "completed" → status ≠ some "in_progress" → status ≠ some "pending" →
      pyTruthy content = true →
      resolve_analyst_slot v report_type status content = v report_type (content.getD "")) ∧
    (status ≠ some "in_progress" → status ≠ some "pending" → pyTruthy content = false →
      resolve_analyst_slot v report_type status content =
        "No " ++ pyTitle (pyReplaceChar '_' ' ' report_type) ++ " available yet.") ∧
    (∀ st : SymbolState, tabs_for_symbol v st = [
      create_markdown_content (resolve_analyst_slot v "market_report"
        (st.agent_statuses "Market Analyst") (st.current_reports "market_report"))
        "No content available yet.",
      create_markdown_content (resolve_analyst_slot v "sentiment_report"
        (st.agent_statuses "Social Analyst") (st.current_reports "sentiment_report"))
        "No content available yet.",
      create_markdown_content (resolve_analyst_slot v "news_report"
        (st.agent_statuses "News Analyst") (st.current_reports "news_report"))
        "No content available yet.",
      create_markdown_content (resolve_analyst_slot v "fundamentals_report"
        (st.agent_statuses "Fundamentals Analyst") (st.current_reports "fundamentals_report"))
        "No content available yet.",
      create_markdown_content (resolve_analyst_slot v "macro_report"
        (st.agent_statuses "Macro Analyst") (st.current_reports "macro_report"))
        "No content available yet.",
      create_markdown_content (pyOrDefault (st.current_reports "research_manager_report")
        "No research manager decision available yet.") "No content available yet.",
      create_markdown_content (pyOrDefault (st.current_reports "trader_investment_plan")
        "No trader report available yet.") "No content available yet.",
      create_markdown_content (pyOrDefault (st.current_reports "final_trade_decision")
        "No final decision available yet.") "No content available yet." ]) := by
  refine ⟨?_, ?_, ?_, ?_, ?_, fun st => rfl⟩
  · intro h1 h2
    simp [resolve_analyst_slot, h1, h2]
  · intro h1
    simp [resolve_analyst_slot, h1]
  · intro h1
    simp [resolve_analyst_slot, h1]
  · intro h1 h2 h3 hc
    have e1 : (status == some "completed") = false := beq_eq_false_iff_ne.mpr h1
    have e2 : (status == some "in_progress") = false := beq_eq_false_iff_ne.mpr h2
    have e3 : (status == some "pending") = false := beq_eq_false_iff_ne.mpr h3
    simp [resolve_analyst_slot, e1, e2, e3, hc]
  · intro h2 h3 hc
    have e2 : (status == some "in_progress") = false := beq_eq_false_iff_ne.mpr h2
    have e3 : (status == some "pending") = false := beq_eq_false_iff_ne.mpr h3
    simp [resolve_analyst_slot, e2, e3, hc]

theorem c1_witness :
    resolve_analyst_slot bangValidator "market_report" (some "completed") (some "RAW") =
      "RAW" ∧
    resolve_analyst_slot bangValidator "market_report" (some "in_progress") (some "RAW") =
      "🔄 Market Report - Analysis in progress..." ∧
    resolve_analyst_slot bangValidator "sentiment_report" (some "pending") none =
      "⏳ Sentiment Report - Waiting to start..." ∧
    resolve_analyst_slot bangValidator "news_report" none (some "RAW") =
      "validated(news_report): RAW" ∧
    resolve_analyst_slot bangValidator "macro_report" none none =
      "No Macro Report available yet." := by
  have h1 := c1_slot_precedence bangValidator "market_report" (some "completed") (some "RAW")
  have h2 := c1_slot_precedence bangValidator "market_report" (some "in_progress") (some "RAW")
  have h3 := c1_slot_precedence bangValidator "sentiment_report" (some "pending") none
  have h4 := c1_slot_precedence bangValidator "news_report" none (some "RAW")
  have h5 := c1_slot_precedence bangValidator "macro_report" none none
  exact ⟨(h1.1 rfl (by decide)).trans (by decide),
    (h2.2.1 rfl).trans (by decide),
    (h3.2.2.1 rfl).trans (by decide),
    (h4.2.2.2.1 (by decide) (by decide) (by decide) (by decide)).trans (by decide),
    (h5.2.2.2.2.1 (by decide) (by decide) (by decide)).trans (by decide)⟩

/-- C2: for every symbol state where analysis_complete is false (absence is
modelled as false) and the final_trade_decision text is non-empty,
`update_decision_summary` never takes the Final Decision branch for that
text: the output is the interim (partial-summary) composition, whose
Current Decision fallback (first non-empty of final report text, last line
of risk-debate history, trader plan, research manager report) is exactly
that text. -/
theorem c2_race_condition_guard
    (symbols : List String) (g : String → Option SymbolState) (p : Int)
    (s : String) (st : SymbolState) (t : String)
    (hp1 : 1 ≤ p) (hp2 : p ≤ (symbols.length : Int))
    (hs : symbols.get? (p - 1).toNat = some s) (hg : g s = some st)
    (hc : st.analysis_complete = false)
    (hf : st.current_reports "final_trade_decision" = some t) (ht : t ≠ "") :
    update_decision_summary symbols g (some p) = .ok (decision_interim st) ∧
    decision_body st = decision_interim st ∧
    current_decision st = some t ∧
    decision_interim st =
      ("## Partial Analysis for " ++ st.ticker_symbol ++ "\n\n" ++
        "**Completed Reports:** " ++ pyJoin ", " (available_reports st) ++ "\n\n") ++
      "**Current Decision:** Based on completed analysis\n\n" ++ t := by
  have hbody : decision_body st = decision_interim st := by
    simp [decision_body, hc]
  have hcd : current_decision st = some t := by
    simp [current_decision, pyOr, pyTruthy, hf, ht]
  have hmem : "Portfolio Manager Final Decision" ∈ available_reports st := by
    simp [available_reports, hf]
  have hne : available_reports st ≠ [] := by
    intro h0
    rw [h0] at hmem
    exact absurd hmem (List.not_mem_nil _)
  have hcdt : pyTruthy (current_decision st) = true := by
    simp [hcd, pyTruthy, ht]
  refine ⟨?_, hbody, hcd, ?_⟩
  · rw [update_decision_summary_in_range symbols g p s hp1 hp2 hs]
    simp [decision_for, hg, hbody]
  · simp [decision_interim, hne, hcd, pyTruthy, ht]

/-- Concrete state for instantiating the race-condition guard: analysis not
complete, but the final decision text is already present. -/
def stC2 : SymbolState where
  current_reports := fun k => if k = "final_trade_decision" then some "HOLD" else none
  agent_statuses := fun _ => none
  analysis_complete := false
  analysis_results := none
  recommended_action := none
  risk_debate_history := none
  ticker_symbol := "AAPL"

/-- Concrete `get_state` for the race-condition instantiation. -/
def gC2 : String → Option SymbolState := fun s => if s = "AAPL" then some stC2 else none

theorem c2_witness :
    update_decision_summary ["AAPL"] gC2 (some 1) = .ok (decision_interim stC2) ∧
    current_decision stC2 = some "HOLD" := by
  have h := c2_race_condition_guard ["AAPL"] gC2 1 "AAPL" stC2 "HOLD"
    (by decide) (by decide) (by decide) rfl rfl rfl (by decide)
  exact ⟨h.1, h.2.2.1⟩

/-- C7: in the interim (partial) branch of `update_decision_summary`, the
single Current Decision text is chosen by the fixed precedence final-report
text, then last newline-separated line of the risk-debate history, then
trader investment plan, then research manager report — the first non-empty
one wins; and when the chosen value is truthy it is appended after the
Current Decision header. -/
theorem c7_current_decision_precedence (st : SymbolState) :
    (pyTruthy (st.current_reports "final_trade_decision") = true →
      current_decision st = st.current_reports "final_trade_decision") ∧
    (pyTruthy (st.current_reports "final_trade_decision") = false →
      risk_debate_latest st ≠ "" →
      current_decision st = some (risk_debate_latest st)) ∧
    (pyTruthy (st.current_reports "final_trade_decision") = false →
      risk_debate_latest st = "" →
      pyTruthy (st.current_reports "trader_investment_plan") = true →
      current_decision st = st.current_reports "trader_investment_plan") ∧
    (pyTruthy (st.current_reports "final_trade_decision") = false →
      risk_debate_latest st = "" →
      pyTruthy (st.current_reports "trader_investment_plan") = false →
      current_decision st = st.current_reports "research_manager_report") ∧
    (available_reports st ≠ [] → pyTruthy (current_decision st) = true →
      decision_interim st =
        ("## Partial Analysis for " ++ st.ticker_symbol ++ "\n\n" ++
          "**Completed Reports:** " ++ pyJoin ", " (available_reports st) ++ "\n\n") ++
        "**Current Decision:** Based on completed analysis\n\n" ++
          (current_decision st).getD "") := by
  refine ⟨?_, ?_, ?_, ?_, ?_⟩
  · intro h1
    simp [current_decision, pyOr, h1]
  · intro h1 h2
    have hl : pyTruthy (some (risk_debate_latest st)) = true := by
      simp [pyTruthy, h2]
    simp [current_decision, pyOr, h1, hl]
  · intro h1 h2 h3
    have hl : pyTruthy (some (risk_debate_latest st)) = false := by
      simp [pyTruthy, h2]
    simp [current_decision, pyOr, h1, hl, h3]
  · intro h1 h2 h3
    have hl : pyTruthy (some (risk_debate_latest st)) = false := by
      simp [pyTruthy, h2]
    simp [current_decision, pyOr, h1, hl, h3]
  · intro hne hcd
    simp [decision_interim, hne, hcd]

/-- Concrete state for the precedence instantiation: no final decision yet,
a two-line risk-debate history, and a trader plan that must lose to the
debate's last line. -/
def stC7 : SymbolState where
  current_reports := fun k => if k = "trader_investment_plan" then some "PLAN" else none
  agent_statuses := fun _ => none
  analysis_complete := false
  analysis_results := none
  recommended_action := none
  risk_debate_history := some "first line\nlast line"
  ticker_symbol := "TSLA"

theorem c7_witness :
    current_decision stC7 = some "last line" ∧
    risk_debate_latest stC7 = "last line" := by
  have h := c7_current_decision_precedence stC7
  have hl : risk_debate_latest stC7 = "last line" := by decide
  refine ⟨?_, hl⟩
  have := h.2.1 (by decide) (by rw [hl]; decide)
  rw [this, hl]

/-- C10: in `update_decision_summary`, presence of the final_trade_decision
report is tested with `is not None` rather than non-emptiness: when
analysis_complete is true and the final report is the empty string, the
Final Decision branch is still taken and (absent structured
analysis_results and a recommended action) the Full Analysis section is
rendered with empty body text; and in the interim branch an empty-string
final report is still listed among the completed reports, while the other
eight tracked artifacts are listed exactly when their text is non-empty. -/
theorem c10_is_not_none_asymmetry (st : SymbolState) :
    (st.analysis_complete = true → st.current_reports "final_trade_decision" = some "" →
      decision_body st = decision_final st ∧
      (st.analysis_results = none → st.recommended_action = none →
        decision_final st =
          ("## Final Decision for " ++ st.ticker_symbol ++ "\n\n") ++
            "**Full Analysis:**\n")) ∧
    ("Portfolio Manager Final Decision" ∈ available_reports st ↔
      (st.current_reports "final_trade_decision").isSome = true) ∧
    ("Market Analysis" ∈ available_reports st ↔
      pyTruthy (st.current_reports "market_report") = true) ∧
    ("Social Media Sentiment" ∈ available_reports st ↔
      pyTruthy (st.current_reports "sentiment_report") = true) ∧
    ("News Analysis" ∈ available_reports st ↔
      pyTruthy (st.current_reports "news_report") = true) ∧
    ("Fundamentals Analysis" ∈ available_reports st ↔
      pyTruthy (st.current_reports "fundamentals_report") = true) ∧
    ("Macro Analysis" ∈ available_reports st ↔
      pyTruthy (st.current_reports "macro_report") = true) ∧
    ("Research Manager Decision" ∈ available_reports st ↔
      pyTruthy (st.current_reports "research_manager_report") = true) ∧
    ("Trader Investment Plan" ∈ available_reports st ↔
      pyTruthy (st.current_reports "trader_investment_plan") = true) ∧
    ("Risk Debate" ∈ available_reports st ↔
      pyTruthy st.risk_debate_history = true) := by
  constructor
  · intro hc hf
    constructor
    · simp [decision_body, hc, hf]
    · intro hres hrec
      simp [decision_final, hres, hrec, hf, pyTruthy]
  · refine ⟨?_, ?_, ?_, ?_, ?_, ?_, ?_, ?_, ?_⟩ <;>
      simp [available_reports]

/-- Concrete state for the is-not-None instantiation: analysis complete with
an empty final decision text and an empty (falsy) market report. -/
def stC10 : SymbolState where
  current_reports := fun k =>
    if k = "final_trade_decision" then some ""
    else if k = "market_report" then some "" else none
  agent_statuses := fun _ => none
  analysis_complete := true
  analysis_results := none
  recommended_action := none
  risk_debate_history := none
  ticker_symbol := "NVDA"

theorem c10_witness :
    decision_body stC10 = decision_final stC10 ∧
    decision_final stC10 = ("## Final Decision for " ++ "NVDA" ++ "\n\n") ++
      "**Full Analysis:**\n" ∧
    "Portfolio Manager Final Decision" ∈ available_reports stC10 ∧
    "Market Analysis" ∉ available_reports stC10 := by
  have h := c10_is_not_none_asymmetry stC10
  have h1 := h.1 rfl rfl
  refine ⟨h1.1, h1.2 rfl rfl, h.2.1.mpr (by decide), fun hm => ?_⟩
  have := h.2.2.1.mp hm
  simp [pyTruthy, stC10] at this

lemma handle_report_symbol_click_cons (symbols : List String)
    (current : Option String) (clicks : List Nat) (t : TriggerEntry)
    (ts : List TriggerEntry) :
    handle_report_symbol_click symbols current clicks (t :: ts) =
      if (!(clicks.any fun n => n != 0)) = true then (current, none)
      else if t.is_symbol_btn then
        (if 0 <= t.index ∧ t.index < (symbols.length : Int) then
          match pyListGet symbols t.index with
          | some sym =>
            (some sym, some (t.index + 1, t.index + 1, render_symbol_buttons symbols t.index))
          | none => (current, none)
        else (current, none))
      else (current, none) := by
  unfold handle_report_symbol_click
  cases h : (clicks.any fun n => n != 0) <;> rfl

/-- C6: for every click event on symbol button index i with
0 <= i < len(symbols), `handle_report_symbol_click` sets the current-symbol
pointer to symbols[i] and returns page number i+1 for both pagination
outputs together with a re-rendered button set whose active marking is
exactly index i; when the event carries no valid index (no clicks recorded,
no trigger, index out of range, or a non-symbol-button trigger) it returns
no-update for all three outputs and leaves the current symbol unchanged. -/
theorem c6_symbol_click (symbols : List String) (current : Option String)
    (clicks : List Nat) (t : TriggerEntry) (ts : List TriggerEntry) :
    ((clicks.any fun n => n != 0) = true → t.is_symbol_btn = true →
      0 ≤ t.index → t.index < (symbols.length : Int) →
      ∀ s, symbols.get? t.index.toNat = some s →
        handle_report_symbol_click symbols current clicks (t :: ts) =
          (some s, some (t.index + 1, t.index + 1, render_symbol_buttons symbols t.index))) ∧
    (∀ j sym b, (render_symbol_buttons symbols t.index).get? j = some (sym, b) →
      (b = true ↔ (j : Int) = t.index)) ∧
    ((clicks.any fun n => n != 0) = false →
      handle_report_symbol_click symbols current clicks (t :: ts) = (current, none)) ∧
    (handle_report_symbol_click symbols current clicks [] = (current, none)) ∧
    (¬ (0 ≤ t.index ∧ t.index < (symbols.length : Int)) →
      handle_report_symbol_click symbols current clicks (t :: ts) = (current, none)) ∧
    (t.is_symbol_btn = false →
      handle_report_symbol_click symbols current clicks (t :: ts) = (current, none)) := by
  refine ⟨?_, ?_, ?_, ?_, ?_, ?_⟩
  · intro hany hbtn h0 hlt s hs
    have hb : (0 : Int) ≤ t.index ∧ t.index < (symbols.length : Int) := ⟨h0, hlt⟩
    have hg := pyListGet_of_get? symbols t.index s h0 hs
    simp [handle_report_symbol_click, hany, hbtn, hb, hg]
  · intro j sym b hjb
    simp only [render_symbol_buttons, List.get?_map, List.get?_enum,
      Option.map_map, Option.map_eq_some'] at hjb
    obtain ⟨a, _, heq⟩ := hjb
    have hb : b = ((j : Int) == t.index) := (congrArg Prod.snd heq).symm
    subst hb
    exact beq_iff_eq
  · intro hany
    simp [handle_report_symbol_click, hany]
  · simp [handle_report_symbol_click]
  · intro hbound
    rw [handle_report_symbol_click_cons]
    cases hany : (clicks.any fun n => n != 0) with
    | false => rfl
    | true =>
      cases hbtn : t.is_symbol_btn with
      | false => rfl
      | true => exact if_neg hbound
  · intro hbtn
    rw [handle_report_symbol_click_cons, hbtn]
    cases hany : (clicks.any fun n => n != 0) with
    | false => rfl
    | true => rfl

theorem c6_witness :
    handle_report_symbol_click ["A", "B"] none [0, 1] [⟨true, 1⟩] =
      (some "B", some (2, 2, [("A", false), ("B", true)])) ∧
    handle_report_symbol_click ["A", "B"] none [0, 1] [] = (none, none) ∧
    handle_report_symbol_click ["A", "B"] none [0, 1] [⟨true, 5⟩] = (none, none) := by
  have h := c6_symbol_click ["A", "B"] none [0, 1] ⟨true, 1⟩ []
  have h5 := c6_symbol_click ["A", "B"] none [0, 1] ⟨true, 5⟩ []
  refine ⟨?_, h.2.2.2.1, h5.2.2.2.2.1 (by decide)⟩
  exact (h.1 (by decide) rfl (by decide) (by decide) "B" (by decide)).trans (by decide)
